import Mathlib

/-!
A shallow embedding of the `WidgetPod` propagation engine of masonry-rs
(`src/widget/widget_pod.rs`): per-node widget state, the event pass, the
lifecycle pass, the layout pass and the paint pass, together with proofs
about their routing, hot-state, focus and culling behaviour.

Geometry (`kurbo` points, sizes, insets and rectangles) is embedded over
integer coordinates: the floating-point `f64` of the source only ever
enters these passes through additions, subtractions, `min`/`max` and
comparisons — never a product or quotient — so every control-flow decision
depends only on the ordered-additive-group structure of the coordinates,
which `Int` models exactly.

The inner widget wrapped by a pod is arbitrary user code behind the
`Widget` trait; it is embedded as a record of opaque state transformers
(`Inner`), one per trait method that the pod calls back into.
-/

namespace Masonry

/-- Integer stand-in for the `f64` coordinates of `kurbo` (see above). -/
abbrev Coord := Int

/-- Widget identifiers (`WidgetId`), opaque and globally unique. -/
abbrev WidgetId := Nat

/-- `kurbo::Point` (also used for `Vec2`, which has the same data). -/
structure Point where
  x : Coord
  y : Coord
  deriving DecidableEq

instance : Add Point := ⟨fun p q => ⟨p.x + q.x, p.y + q.y⟩⟩
instance : Sub Point := ⟨fun p q => ⟨p.x - q.x, p.y - q.y⟩⟩

/-- `kurbo::Size`. -/
structure Size where
  width : Coord
  height : Coord
  deriving DecidableEq

/-- `kurbo::Insets`. -/
structure Insets where
  x0 : Coord
  y0 : Coord
  x1 : Coord
  y1 : Coord
  deriving DecidableEq

/-- `kurbo::Rect`. -/
structure Rect where
  x0 : Coord
  y0 : Coord
  x1 : Coord
  y1 : Coord
  deriving DecidableEq

/-- `Rect::origin`. -/
def Rect.origin (r : Rect) : Point := ⟨r.x0, r.y0⟩

/-- `Rect::from_origin_size`. -/
def Rect.from_origin_size (o : Point) (sz : Size) : Rect :=
  ⟨o.x, o.y, o.x + sz.width, o.y + sz.height⟩

/-- Modelled from the spec: `kurbo`'s `Shape::winding` for an (axis-aligned,
sorted) `Rect` — the out-of-scope geometry library. The spec states hot
testing uses the winding rule and that a position exactly on a degenerate
zero-area rect is never inside; the winding number of an axis-aligned
rectangle is 1 on the half-open box `[x0, x1) × [y0, y1)` and 0 elsewhere. -/
def Rect.winding (r : Rect) (p : Point) : Int :=
  if r.x0 ≤ p.x ∧ p.x < r.x1 ∧ r.y0 ≤ p.y ∧ p.y < r.y1 then 1 else 0

/-- `Rect::union`. -/
def Rect.union (a b : Rect) : Rect :=
  ⟨min a.x0 b.x0, min a.y0 b.y0, max a.x1 b.x1, max a.y1 b.y1⟩

/-- `Rect + Insets` (`kurbo`): insets grow the rectangle on each side. -/
def Rect.add_insets (r : Rect) (i : Insets) : Rect :=
  ⟨r.x0 - i.x0, r.y0 - i.y0, r.x1 + i.x1, r.y1 + i.y1⟩

/-- `Size::to_rect`. -/
def Size.to_rect (sz : Size) : Rect := ⟨0, 0, sz.width, sz.height⟩

/-- `Rect::intersect` (`kurbo`): clamped so the result is never inverted. -/
def Rect.intersect (a b : Rect) : Rect :=
  let x0 := max a.x0 b.x0
  let y0 := max a.y0 b.y0
  ⟨x0, y0, max (min a.x1 b.x1) x0, max (min a.y1 b.y1) y0⟩

/-- Whether two rects overlap on a region of nonzero area
(`Region::intersects` tests `r.intersect(rect)` for nonzero area). -/
def Rect.intersects (a b : Rect) : Bool :=
  decide (max a.x0 b.x0 < min a.x1 b.x1) && decide (max a.y0 b.y0 < min a.y1 b.y1)

/-- Translate a rect by the negation of a vector (`Region -= Vec2`). -/
def Rect.translate_neg (r : Rect) (v : Point) : Rect :=
  ⟨r.x0 - v.x, r.y0 - v.y, r.x1 - v.x, r.y1 - v.y⟩

/-- `Rect::with_origin`. -/
def Rect.with_origin (r : Rect) (o : Point) : Rect :=
  ⟨o.x, o.y, o.x + (r.x1 - r.x0), o.y + (r.y1 - r.y0)⟩

/-- Modelled from the spec: the caller's visible region during paint
(`druid_shell`'s `Region`, a union of rectangles; not under `src/`). -/
abbrev Region := List Rect

/-- `Region::intersects`: some rectangle of the region overlaps `r`. -/
def region_intersects (rs : Region) (r : Rect) : Bool :=
  rs.any fun a => a.intersects r

/-- `FocusChange` requests consumed by the focus pass. -/
inductive FocusChange where
  | resign
  | next
  | previous
  | focus (w : WidgetId)
  deriving DecidableEq

/-- `StatusChange` events delivered through `Widget::on_status_change`. -/
inductive StatusChange where
  | hotChanged (hot : Bool)
  | focusChanged (focus : Bool)
  deriving DecidableEq

/-- A `Notification` emitted by a widget for its ancestors; only the source
id and an opaque payload are observable to the pod. -/
structure Notification where
  source : WidgetId
  payload : Nat
  deriving DecidableEq

/-- `Target` of a command. -/
inductive Target where
  | auto
  | global
  | window (w : Nat)
  | widget (w : WidgetId)
  deriving DecidableEq

/-- A `Command`; its selector/payload are opaque to the pod. -/
structure Command where
  target : Target
  payload : Nat
  deriving DecidableEq

/-- A mouse event; only the position field is read or written by the pod. -/
structure MouseEvent where
  pos : Point
  deriving DecidableEq

/-- The `Event` enum, with `Event::Internal(InternalEvent::…)` variants
flattened as `internal…` constructors. Payloads the pod never inspects are
opaque naturals. -/
inductive Event where
  | internalMouseLeave
  | internalTargetedCommand (cmd : Command)
  | internalRouteTimer (token : Nat) (target : WidgetId)
  | internalRoutePromiseResult (token : Nat) (target : WidgetId)
  | internalRouteImeStateChange (target : WidgetId)
  | windowConnected
  | windowCloseRequested
  | windowDisconnected
  | windowSize (sz : Size)
  | mouseDown (m : MouseEvent)
  | mouseUp (m : MouseEvent)
  | mouseMove (m : MouseEvent)
  | wheel (m : MouseEvent)
  | animFrame (n : Nat)
  | keyDown (k : Nat)
  | keyUp (k : Nat)
  | paste (p : Nat)
  | zoom (z : Coord)
  | timer (token : Nat)
  | imeStateChange
  | command (cmd : Command)
  | notification (n : Notification)
  | promiseResult (token : Nat)
  deriving DecidableEq

/-- The `LifeCycle` enum, with `LifeCycle::Internal(InternalLifeCycle::…)`
variants flattened as `internal…` constructors. -/
inductive LifeCycle where
  | internalRouteWidgetAdded
  | internalRouteDisabledChanged
  | internalRouteFocusChanged (old new : Option WidgetId)
  | internalParentWindowOrigin
  | widgetAdded
  | disabledChanged (ancestorsDisabled : Bool)
  | buildFocusChain
  | requestPanToChild (r : Rect)
  deriving DecidableEq

/-- The two debug-overlay keys of `Env` that the pod reads. -/
structure EnvM where
  debug_widget_id : Bool
  debug_paint : Bool
  deriving DecidableEq

/-- The per-node `WidgetState` record. The fields written by
`widget_pod.rs` are embedded one-for-one; the descendant bloom filter is
embedded as its observable membership test (`Bloom::may_contain`), an
arbitrary boolean predicate on ids (false positives are arbitrary `true`
answers of that predicate). `invalid` abstracts the repaint-request
region to the single bit the claims can observe. -/
structure WidgetState where
  id : WidgetId
  size : Size
  origin : Point
  parent_window_origin : Point
  paint_insets : Insets
  local_paint_rect : Rect
  baseline_offset : Coord
  is_expecting_place_child_call : Bool
  is_portal : Bool
  invalid : Bool
  is_hot : Bool
  is_active : Bool
  has_active : Bool
  has_focus : Bool
  request_focus : Option FocusChange
  request_anim : Bool
  is_explicitly_disabled : Bool
  ancestor_disabled : Bool
  is_explicitly_disabled_new : Bool
  children_disabled_changed : Bool
  is_stashed : Bool
  is_new : Bool
  needs_layout : Bool
  needs_window_origin : Bool
  children_changed : Bool
  update_focus_chain : Bool
  children : WidgetId → Bool
  focus_chain : List WidgetId

/-- `WidgetState::is_disabled`: explicitly disabled or an ancestor is. -/
def WidgetState.is_disabled (s : WidgetState) : Bool :=
  s.is_explicitly_disabled || s.ancestor_disabled

/-- `WidgetState::layout_rect`: origin set by the parent plus own size. -/
def WidgetState.layout_rect (s : WidgetState) : Rect :=
  Rect.from_origin_size s.origin s.size

/-- `WidgetState::paint_rect`: the layout rect grown by the paint insets. -/
def WidgetState.paint_rect (s : WidgetState) : Rect :=
  s.layout_rect.add_insets s.paint_insets

/-- Modelled from the spec: `WidgetState::window_origin` (not under
`src/`) — the cached absolute window-space origin of this node, i.e. the
parent's window origin plus this node's layout origin. -/
def WidgetState.window_origin (s : WidgetState) : Point :=
  s.parent_window_origin + s.origin

/-- Modelled from the spec: `WidgetState::new` (not under `src/`) — a node
state is created alongside its pod, starts `is_new = true`, and every
other piece of accumulated state starts empty/false. -/
def WidgetState.new (id : WidgetId) : WidgetState where
  id := id
  size := ⟨0, 0⟩
  origin := ⟨0, 0⟩
  parent_window_origin := ⟨0, 0⟩
  paint_insets := ⟨0, 0, 0, 0⟩
  local_paint_rect := ⟨0, 0, 0, 0⟩
  baseline_offset := 0
  is_expecting_place_child_call := false
  is_portal := false
  invalid := false
  is_hot := false
  is_active := false
  has_active := false
  has_focus := false
  request_focus := none
  request_anim := false
  is_explicitly_disabled := false
  ancestor_disabled := false
  is_explicitly_disabled_new := false
  children_disabled_changed := false
  is_stashed := false
  is_new := true
  needs_layout := false
  needs_window_origin := false
  children_changed := false
  update_focus_chain := false
  children := fun _ => false
  focus_chain := []

/-- `WidgetPod::new_with_id`: fresh state, then `children_changed` and
`needs_layout` are set. -/
def new_with_id (id : WidgetId) : WidgetState :=
  { WidgetState.new id with children_changed := true, needs_layout := true }

/-- `WidgetPod::boxed`: rebuilds the pod around the boxed inner widget via
`new_with_id`, keeping only the id of the old state. -/
def boxed (s : WidgetState) : WidgetState :=
  new_with_id s.id

/-- Modelled from the spec: `WidgetState::merge_up` (not under `src/`) —
after visiting a child, every aggregated flag on the parent becomes the OR
of its prior value and the child's corresponding flag, and the child's
one-shot focus request is moved upward. -/
def merge_up (parent child : WidgetState) : WidgetState × WidgetState :=
  ({ parent with
      needs_layout := parent.needs_layout || child.needs_layout
      needs_window_origin := parent.needs_window_origin || child.needs_window_origin
      request_anim := parent.request_anim || child.request_anim
      children_disabled_changed :=
        parent.children_disabled_changed || child.children_disabled_changed
      has_active := parent.has_active || child.has_active
      has_focus := parent.has_focus || child.has_focus
      children_changed := parent.children_changed || child.children_changed
      update_focus_chain := parent.update_focus_chain || child.update_focus_chain
      invalid := parent.invalid || child.invalid
      request_focus := child.request_focus.orElse fun _ => parent.request_focus },
   { child with request_focus := none })

/-- `BoxConstraints`: the min/max sizes handed down during layout. -/
structure BoxConstraints where
  min : Size
  max : Size
  deriving DecidableEq

/-- What an inner `Widget::event` call returns to the pod: the mutated
widget state, the `is_handled` flag of the scoped context, the drained
notification queue and any pan-to-child request. -/
structure InnerEventResult where
  state : WidgetState
  is_handled : Bool
  notifications : List Notification
  pan_to_child : Option Rect

/-- The arbitrary inner widget wrapped by the pod, as the state
transformers the pod invokes through the `Widget` trait. Contexts hand the
widget write access to the pod's own `WidgetState`, so each method maps
that state (plus the delivered event) to a new state. `Widget::paint`
receives the state immutably and so has no transformer here. -/
structure Inner where
  on_event : WidgetState → Event → InnerEventResult
  on_status_change : WidgetState → StatusChange → WidgetState
  lifecycle : WidgetState → LifeCycle → WidgetState
  layout : WidgetState → BoxConstraints → Option Point → WidgetState × Size

/-- `WidgetPod::update_hot_state`: recompute `is_hot` from the rect and
the optional mouse position; on a change, request a repaint when widget-id
overlays are on, deliver `StatusChange::HotChanged` to the inner widget
immediately, and report the change (`true`) to the caller. -/
def update_hot_state (inner : Inner) (env : EnvM) (s : WidgetState)
    (rect : Rect) (mouse_pos : Option Point) : WidgetState × Bool :=
  let had_hot := s.is_hot
  let now_hot := match mouse_pos with
    | some pos => decide (rect.winding pos ≠ 0)
    | none => false
  let s := { s with is_hot := now_hot }
  if had_hot != now_hot then
    let s := if env.debug_widget_id then { s with invalid := true } else s
    (inner.on_status_change s (.hotChanged now_hot), true)
  else
    (s, false)

/-- The outcome of the `match event` dispatch inside `WidgetPod::on_event`:
the state after any hot-state update, the `call_inner` decision, the
replacement event (`modified_event`) if any, and whether hot state changed. -/
structure DispatchResult where
  state : WidgetState
  call_inner : Bool
  modified : Option Event
  hot_changed : Bool

/-- The `match event` dispatch of `WidgetPod::on_event`, deciding whether
to recurse and how to rewrite the event. `had_active` and `rect` are the
snapshots taken just before the match. -/
def on_event_dispatch (inner : Inner) (env : EnvM) (is_root : Bool)
    (s : WidgetState) (ev : Event) : DispatchResult :=
  let had_active := s.has_active
  let rect := s.layout_rect
  match ev with
  | .internalMouseLeave =>
      let u := update_hot_state inner env s rect none
      ⟨u.1, had_active || u.2, none, u.2⟩
  | .internalTargetedCommand cmd =>
      match cmd.target with
      | .widget id =>
          if id = s.id then ⟨s, true, some (.command cmd), false⟩
          else ⟨s, s.children id, none, false⟩
      | .global => ⟨s, true, some (.command cmd), false⟩
      | .window _ => ⟨s, true, some (.command cmd), false⟩
      | .auto => ⟨s, false, none, false⟩
  | .internalRouteTimer token target =>
      if target = s.id then ⟨s, true, some (.timer token), false⟩
      else ⟨s, s.children target, none, false⟩
  | .internalRoutePromiseResult token target =>
      if target = s.id then ⟨s, true, some (.promiseResult token), false⟩
      else ⟨s, s.children target, none, false⟩
  | .internalRouteImeStateChange target =>
      if target = s.id then ⟨s, true, some .imeStateChange, false⟩
      else ⟨s, s.children target, none, false⟩
  | .windowConnected => ⟨s, true, none, false⟩
  | .windowCloseRequested => ⟨s, true, none, false⟩
  | .windowDisconnected => ⟨s, true, none, false⟩
  | .windowSize _ => ⟨{ s with needs_layout := true }, is_root, none, false⟩
  | .mouseDown m =>
      let u := update_hot_state inner env s rect (some m.pos)
      if (had_active || u.1.is_hot) && !u.1.is_stashed then
        ⟨u.1, true, some (.mouseDown ⟨m.pos - rect.origin⟩), u.2⟩
      else ⟨u.1, false, none, u.2⟩
  | .mouseUp m =>
      let u := update_hot_state inner env s rect (some m.pos)
      if (had_active || u.1.is_hot) && !u.1.is_stashed then
        ⟨u.1, true, some (.mouseUp ⟨m.pos - rect.origin⟩), u.2⟩
      else ⟨u.1, false, none, u.2⟩
  | .mouseMove m =>
      let u := update_hot_state inner env s rect (some m.pos)
      if (had_active || u.1.is_hot || u.2) && !u.1.is_stashed then
        ⟨u.1, true, some (.mouseMove ⟨m.pos - rect.origin⟩), u.2⟩
      else ⟨u.1, false, none, u.2⟩
  | .wheel m =>
      let u := update_hot_state inner env s rect (some m.pos)
      if (had_active || u.1.is_hot) && !u.1.is_stashed then
        ⟨u.1, true, some (.wheel ⟨m.pos - rect.origin⟩), u.2⟩
      else ⟨u.1, false, none, u.2⟩
  | .animFrame _ =>
      ⟨{ s with request_anim := false }, s.request_anim, none, false⟩
  | .keyDown _ => ⟨s, s.has_focus, none, false⟩
  | .keyUp _ => ⟨s, s.has_focus, none, false⟩
  | .paste _ => ⟨s, s.has_focus, none, false⟩
  | .zoom _ => ⟨s, had_active || s.is_hot, none, false⟩
  | .timer _ => ⟨s, false, none, false⟩
  | .imeStateChange => ⟨s, true, none, false⟩
  | .command _ => ⟨s, true, none, false⟩
  | .notification _ => ⟨s, false, none, false⟩
  | .promiseResult _ => ⟨s, false, none, false⟩

/-- One step of `WidgetPod::process_notifications`: a notification from a
deeper descendant is re-delivered to the inner widget as a synthetic
notification event (whose own emissions go straight to the parent queue)
and pushed to the parent queue if unhandled; one from the direct child is
re-emitted verbatim to the parent queue. -/
def process_notification_step (inner : Inner)
    (acc : WidgetState × List Notification) (n : Notification) :
    WidgetState × List Notification :=
  if n.source ≠ acc.1.id then
    let r := inner.on_event acc.1 (.notification n)
    let pns := acc.2 ++ r.notifications
    if r.is_handled then (r.state, pns) else (r.state, pns ++ [n])
  else
    (acc.1, acc.2 ++ [n])

/-- `WidgetPod::process_notifications`, folded over the drained queue. -/
def process_notifications (inner : Inner) (s : WidgetState)
    (ns : List Notification) (parent_ns : List Notification) :
    WidgetState × List Notification :=
  ns.foldl (process_notification_step inner) (s, parent_ns)

/-- What `WidgetPod::on_event` leaves behind: the caller's merged state and
`is_handled` flag, this pod's state, whether and with which event the
inner widget was invoked, the caller's notification queue, any bubbled
pan-to-child rect, and whether a `debug_panic!` fired (debug builds abort
there; release builds continue as modelled). -/
structure EventResult where
  parent : WidgetState
  state : WidgetState
  is_handled : Bool
  recursed : Bool
  inner_event : Option Event
  parent_notifications : List Notification
  pan_out : Option Rect
  debug_panic : Bool

/-- The `if call_inner` block of `WidgetPod::on_event`: reset `has_active`,
invoke the inner widget on the (possibly rewritten) event, OR the
`is_active` of the returned state back into `has_active`, bubble any
pan-to-child request with coordinates re-offset by this node's origin,
then drain and process the notification queue. Returns the resulting pod
state, the inner `is_handled` flag, the caller's notification queue and
the bubbled pan rect. -/
def on_event_call_inner (inner : Inner) (parent_notifications : List Notification)
    (d : DispatchResult) (ev : Event) :
    WidgetState × Bool × List Notification × Option Rect :=
  let inner_ev := d.modified.getD ev
  let t := { d.state with has_active := false }
  let r := inner.on_event t inner_ev
  let s2 := { r.state with has_active := r.state.has_active || r.state.is_active }
  let pan := match r.pan_to_child with
    | some tr =>
        let s3 := inner.lifecycle s2 (.requestPanToChild tr)
        (s3, some (tr.with_origin (tr.origin + s3.origin)))
    | none => (s2, (none : Option Rect))
  let pr := process_notifications inner pan.1 r.notifications parent_notifications
  (pr.1, r.is_handled, pr.2, pan.2)

/-- `WidgetPod::on_event`. The debug-logger calls are pure observation and
are not modelled; `call_widget_method_with_checks` only adds debug checks
over the child list, which the single-pod state does not carry. -/
def on_event (inner : Inner) (env : EnvM) (is_root : Bool)
    (parent : WidgetState) (parent_handled : Bool)
    (parent_notifications : List Notification)
    (s : WidgetState) (ev : Event) : EventResult :=
  let panicked := s.is_new
  if parent_handled then
    { parent := parent, state := s, is_handled := true, recursed := false,
      inner_event := none, parent_notifications := parent_notifications,
      pan_out := none, debug_panic := panicked }
  else
    let d := on_event_dispatch inner env is_root s ev
    if d.call_inner then
      let c := on_event_call_inner inner parent_notifications d ev
      let m := merge_up parent c.1
      { parent := m.1, state := m.2, is_handled := c.2.1, recursed := true,
        inner_event := some (d.modified.getD ev), parent_notifications := c.2.2.1,
        pan_out := c.2.2.2, debug_panic := panicked }
    else
      let m := merge_up parent d.state
      { parent := m.1, state := m.2, is_handled := false, recursed := false,
        inner_event := none, parent_notifications := parent_notifications,
        pan_out := none, debug_panic := panicked }

/-- What `WidgetPod::lifecycle` leaves behind: the caller's merged state,
this pod's state, whether the `call_inner` block invoked the inner widget,
the plain `DisabledChanged` value delivered inline by the
`RouteDisabledChanged` arm (if any), the `StatusChange` sent afterwards
(if any), whether the non-fatal already-initialized `warn!` fired, and
whether a `debug_panic!` fired. -/
structure LifeCycleResult where
  parent : WidgetState
  state : WidgetState
  recursed : Bool
  delivered_disabled : Option Bool
  status_change : Option StatusChange
  warned : Bool
  debug_panic : Bool

/-- The result of the early-return taken by the `_ if !self.is_initialized()`
arm of `WidgetPod::lifecycle`: `debug_panic!`, then return with no state
change, no recursion and no merge-up. -/
def lifecycle_uninit_return (parent s : WidgetState) : LifeCycleResult :=
  { parent := parent, state := s, recursed := false, delivered_disabled := none,
    status_change := none, warned := false, debug_panic := true }

/-- The tail of `WidgetPod::lifecycle` after the dispatch `match`: the
`call_inner` recursion, the optional extra `StatusChange`, the per-signal
post-order bookkeeping, and the unconditional merge-up. -/
def lifecycle_finish (inner : Inner) (parent s : WidgetState) (ev : LifeCycle)
    (had_focus : Bool) (call_inner : Bool) (extra : Option StatusChange)
    (delivered : Option Bool) (warned : Bool) : LifeCycleResult :=
  let s := if call_inner then inner.lifecycle s ev else s
  let s := match extra with
    | some e => inner.on_status_change s e
    | none => s
  let ps : WidgetState × WidgetState :=
    match ev with
    | .widgetAdded | .internalRouteWidgetAdded =>
        let s := { s with children_changed := false }
        let parent := { parent with
          children := fun i => (parent.children i || s.children i) || decide (i = s.id) }
        (parent, s)
    | .disabledChanged _ | .internalRouteDisabledChanged =>
        let s := { s with children_disabled_changed := false }
        let s := if s.is_disabled && s.has_focus then
            { s with request_focus := some .resign }
          else s
        let s := { s with is_explicitly_disabled_new := s.is_explicitly_disabled }
        (parent, s)
    | .buildFocusChain =>
        let s := { s with update_focus_chain := false }
        let s := if had_focus && !s.has_focus then
            { s with request_focus := some .resign }
          else s
        let s := { s with has_focus := had_focus }
        let parent := if !s.is_disabled then
            { parent with focus_chain := parent.focus_chain ++ s.focus_chain }
          else parent
        (parent, s)
    | _ => (parent, s)
  let m := merge_up ps.1 ps.2
  { parent := m.1, state := m.2, recursed := call_inner,
    delivered_disabled := delivered, status_change := extra,
    warned := warned, debug_panic := false }

/-- The body of `WidgetPod::lifecycle` once the `RouteWidgetAdded`
re-dispatch (handled by `lifecycle`) is out of the way: the dispatch
`match` over the signal followed by `lifecycle_finish`. The Rust `match`
places the `Internal` and `WidgetAdded` arms before the
`_ if !self.is_initialized()` guard, so only the three plain signals below
them perform the initialization check. -/
def lifecycle_main (inner : Inner) (focus_widget : Option WidgetId)
    (parent s : WidgetState) (ev : LifeCycle) : LifeCycleResult :=
  let had_focus := s.has_focus
  match ev with
  | .internalRouteWidgetAdded =>
      let s := if s.children_changed then { s with children := fun _ => false } else s
      lifecycle_finish inner parent s ev had_focus s.children_changed none none false
  | .internalRouteDisabledChanged =>
      let s := { s with update_focus_chain := true }
      let was_disabled := s.is_disabled
      let s := { s with is_explicitly_disabled := s.is_explicitly_disabled_new }
      if was_disabled != s.is_disabled then
        let d := s.is_disabled
        let s := inner.lifecycle s (.disabledChanged d)
        lifecycle_finish inner parent s ev had_focus false none (some d) false
      else
        lifecycle_finish inner parent s ev had_focus s.children_disabled_changed
          none none false
  | .internalRouteFocusChanged old new =>
      let this_changed := if old = some s.id then some false
        else if new = some s.id then some true
        else none
      let s := match this_changed with
        | some change => { s with has_focus := change }
        | none => { s with has_focus := false }
      let extra := this_changed.map fun change => StatusChange.focusChanged change
      let ci := (match old with | some o => s.children o | none => false)
        || (match new with | some n => s.children n | none => false)
      lifecycle_finish inner parent s ev had_focus ci extra none false
  | .internalParentWindowOrigin =>
      let s := { s with
        parent_window_origin := parent.window_origin
        needs_window_origin := false }
      lifecycle_finish inner parent s ev had_focus true none none false
  | .widgetAdded =>
      let warned := !s.is_new
      let s := { s with update_focus_chain := true, is_new := false }
      lifecycle_finish inner parent s ev had_focus true none none warned
  | .disabledChanged ancestors_disabled =>
      if s.is_new then lifecycle_uninit_return parent s
      else
        let s := { s with update_focus_chain := true }
        let was_disabled := s.is_disabled
        let s := { s with
          is_explicitly_disabled := s.is_explicitly_disabled_new
          ancestor_disabled := ancestors_disabled }
        lifecycle_finish inner parent s ev had_focus (was_disabled != s.is_disabled)
          none none false
  | .buildFocusChain =>
      if s.is_new then lifecycle_uninit_return parent s
      else if s.update_focus_chain then
        let s := { s with
          has_focus := decide (focus_widget = some s.id)
          focus_chain := [] }
        lifecycle_finish inner parent s ev had_focus true none none false
      else
        lifecycle_finish inner parent s ev had_focus false none none false
  | .requestPanToChild _ =>
      if s.is_new then lifecycle_uninit_return parent s
      else lifecycle_finish inner parent s ev had_focus false none none false

/-- `WidgetPod::lifecycle`: a `RouteWidgetAdded` arriving at a brand-new
node re-dispatches the whole call as `WidgetAdded` and returns; every
other case runs the dispatch body directly. -/
def lifecycle (inner : Inner) (focus_widget : Option WidgetId)
    (parent s : WidgetState) (ev : LifeCycle) : LifeCycleResult :=
  match ev with
  | .internalRouteWidgetAdded =>
      if s.is_new then lifecycle_main inner focus_widget parent s .widgetAdded
      else lifecycle_main inner focus_widget parent s .internalRouteWidgetAdded
  | _ => lifecycle_main inner focus_widget parent s ev

/-- What `WidgetPod::layout` leaves behind. -/
structure LayoutResult where
  parent : WidgetState
  state : WidgetState
  size : Size
  recursed : Bool
  debug_panic : Bool

/-- `WidgetPod::layout`. A stashed node is a fatal protocol violation and
returns `Size::ZERO` before touching any state; otherwise the pass clears
the layout flags, resets the local paint-bounds accumulator, recurses with
the mouse position translated into local coordinates, grows the local
paint bounds by the returned size plus the paint insets, merges up and
caches the new size. The debug-only per-child `place_child`/containment
checks concern the child list, which the single-pod state does not carry. -/
def layout (inner : Inner) (parent s : WidgetState) (bc : BoxConstraints)
    (mouse_pos : Option Point) : LayoutResult :=
  if s.is_stashed then
    { parent := parent, state := s, size := ⟨0, 0⟩, recursed := false,
      debug_panic := true }
  else
    let panicked := s.is_new
    let s := { s with
      needs_layout := false
      needs_window_origin := false
      is_expecting_place_child_call := true }
    let inner_mouse_pos := mouse_pos.map fun pos => pos - s.layout_rect.origin
    let s := { s with local_paint_rect := ⟨0, 0, 0, 0⟩ }
    let r := inner.layout s bc inner_mouse_pos
    let s := r.1
    let new_size := r.2
    let s := { s with
      local_paint_rect :=
        s.local_paint_rect.union (new_size.to_rect.add_insets s.paint_insets) }
    let m := merge_up parent s
    let s := { m.2 with size := new_size }
    { parent := m.1, state := s, size := new_size, recursed := true,
      debug_panic := panicked }

/-- What `WidgetPod::paint_impl` leaves behind. `PaintCtx` only holds a
shared borrow of the widget state, so the pass cannot mutate it; the
observable outcome is whether the inner widget was painted and, if so,
the child-scoped visible region. -/
structure PaintResult where
  state : WidgetState
  recursed : Bool
  child_region : Option Region
  debug_panic : Bool

/-- `WidgetPod::paint_impl` (reached from `paint` with
`paint_if_not_visible = false` and from `paint_always` with `true`):
painting a stashed node is fatal and returns at once; an uninitialized
node is a fatal check that debug builds abort on; a non-forced call whose
paint rect does not intersect the visible region returns before doing
anything; otherwise the caller's region is intersected with the paint rect,
translated into child coordinates, and the inner widget is painted. -/
def paint_impl (region : Region) (s : WidgetState)
    (paint_if_not_visible : Bool) : PaintResult :=
  if s.is_stashed then
    { state := s, recursed := false, child_region := none, debug_panic := true }
  else
    let panicked := s.is_new
    if !paint_if_not_visible && !region_intersects region s.paint_rect then
      { state := s, recursed := false, child_region := none, debug_panic := panicked }
    else
      let o := s.layout_rect.origin
      let visible := region.map fun r => (r.intersect s.paint_rect).translate_neg o
      { state := s, recursed := true, child_region := some visible,
        debug_panic := panicked }

/-! ### Concrete fixtures used by counterexamples and witnesses -/

/-- An environment with both debug overlays off. -/
def env0 : EnvM := ⟨false, false⟩

/-- A parent node state for concrete runs. -/
def parent0 : WidgetState := WidgetState.new 0

/-- An inert inner widget: handles nothing, changes nothing. -/
def inner_id : Inner where
  on_event := fun s _ => ⟨s, false, [], none⟩
  on_status_change := fun s _ => s
  lifecycle := fun s _ => s
  layout := fun s _ _ => (s, ⟨0, 0⟩)

/-- A freshly created pod state (still `is_new`). -/
def pod_uninit : WidgetState := new_with_id 5

/-- An initialized pod state with a `10 × 10` layout rect at the origin. -/
def pod_init : WidgetState :=
  { new_with_id 1 with is_new := false, size := ⟨10, 10⟩ }

/-! ### C1 — lifecycle signals before initialization -/

/-- Claim C1 counterexample: the claim says every lifecycle signal other
than the two "added" ones — explicitly including the internal routed
variants — is a fatal protocol violation on an uninitialized pod and
aborts without recursing. But in `WidgetPod::lifecycle` the
`LifeCycle::Internal` arms sit above the `_ if !self.is_initialized()`
guard, so `ParentWindowOrigin` delivered to a brand-new pod raises no
diagnostic and recurses into the inner widget. -/
theorem claim_C1_counterexample :
    pod_uninit.is_new = true ∧
    (lifecycle inner_id none parent0 pod_uninit .internalParentWindowOrigin).debug_panic
      = false ∧
    (lifecycle inner_id none parent0 pod_uninit .internalParentWindowOrigin).recursed
      = true := by
  decide

/-- Claim C1 (amended): only the plain signals below the initialization
guard — `DisabledChanged`, `BuildFocusChain` and `RequestPanToChild` —
report a fatal protocol violation when they arrive before `WidgetAdded`,
and the call then returns with no recursion and no state change; the
internal routed variants bypass the check. -/
theorem claim_C1_amended (inner : Inner) (focus_widget : Option WidgetId)
    (parent s : WidgetState) (ev : LifeCycle) (hnew : s.is_new = true)
    (hev : (∃ b, ev = .disabledChanged b) ∨ ev = .buildFocusChain ∨
      ∃ r, ev = .requestPanToChild r) :
    (lifecycle inner focus_widget parent s ev).debug_panic = true ∧
    (lifecycle inner focus_widget parent s ev).recursed = false ∧
    (lifecycle inner focus_widget parent s ev).state = s ∧
    (lifecycle inner focus_widget parent s ev).parent = parent := by
  rcases hev with ⟨b, rfl⟩ | rfl | ⟨r, rfl⟩ <;>
    simp [lifecycle, lifecycle_main, lifecycle_uninit_return, hnew]

/-- Claim C1 witness: the amended theorem applied to a concrete
uninitialized pod receiving a plain `BuildFocusChain`. -/
theorem claim_C1_witness :
    pod_uninit.is_new = true ∧
    ((lifecycle inner_id none parent0 pod_uninit .buildFocusChain).debug_panic = true ∧
     (lifecycle inner_id none parent0 pod_uninit .buildFocusChain).recursed = false ∧
     (lifecycle inner_id none parent0 pod_uninit .buildFocusChain).state = pod_uninit ∧
     (lifecycle inner_id none parent0 pod_uninit .buildFocusChain).parent = parent0) :=
  ⟨rfl, claim_C1_amended inner_id none parent0 pod_uninit .buildFocusChain rfl
    (Or.inr (Or.inl rfl))⟩

/-! ### C2 — repeated `WidgetAdded` -/

/-- A pod that already received `WidgetAdded`. -/
def pod_added : WidgetState := { new_with_id 7 with is_new := false }

/-- Claim C2 counterexample: the claim says a repeated `WidgetAdded` is
reported as fatal in debug builds like every protocol violation. In the
code the `WidgetAdded` arm only emits the non-fatal
`warn!("Already initialized.")` and carries on, recursing into the inner
widget; no `debug_panic!` fires. -/
theorem claim_C2_counterexample :
    pod_added.is_new = false ∧
    (lifecycle inner_id none parent0 pod_added .widgetAdded).debug_panic = false ∧
    (lifecycle inner_id none parent0 pod_added .widgetAdded).warned = true ∧
    (lifecycle inner_id none parent0 pod_added .widgetAdded).recursed = true := by
  decide

/-- Claim C2 (amended): a repeated `WidgetAdded` on an initialized pod is
reported only as a non-fatal warning, and the signal is then processed
normally (the call recurses into the inner widget rather than aborting). -/
theorem claim_C2_amended (inner : Inner) (focus_widget : Option WidgetId)
    (parent s : WidgetState) (hinit : s.is_new = false) :
    (lifecycle inner focus_widget parent s .widgetAdded).warned = true ∧
    (lifecycle inner focus_widget parent s .widgetAdded).debug_panic = false ∧
    (lifecycle inner focus_widget parent s .widgetAdded).recursed = true := by
  simp [lifecycle, lifecycle_main, lifecycle_finish, hinit]

/-- Claim C2 witness: the amended theorem applied to a concrete
already-initialized pod. -/
theorem claim_C2_witness :
    pod_added.is_new = false ∧
    ((lifecycle inner_id none parent0 pod_added .widgetAdded).warned = true ∧
     (lifecycle inner_id none parent0 pod_added .widgetAdded).debug_panic = false ∧
     (lifecycle inner_id none parent0 pod_added .widgetAdded).recursed = true) :=
  ⟨rfl, claim_C2_amended inner_id none parent0 pod_added rfl⟩

/-! ### C7 — layout on a stashed node -/

/-- Claim C7: calling layout on a stashed pod returns a zero size, does not
recurse, leaves both the pod's and the caller's state untouched, and
records a fatal diagnostic in debug builds. -/
theorem claim_C7 (inner : Inner) (parent s : WidgetState) (bc : BoxConstraints)
    (mouse_pos : Option Point) (hst : s.is_stashed = true) :
    (layout inner parent s bc mouse_pos).size = ⟨0, 0⟩ ∧
    (layout inner parent s bc mouse_pos).recursed = false ∧
    (layout inner parent s bc mouse_pos).state = s ∧
    (layout inner parent s bc mouse_pos).parent = parent ∧
    (layout inner parent s bc mouse_pos).debug_panic = true := by
  simp [layout, hst]

/-- A stashed pod state with a pending `needs_layout`. -/
def pod_stashed : WidgetState :=
  { new_with_id 11 with is_new := false, is_stashed := true }

/-- Claim C7 witness: the theorem applied to a concrete stashed pod. -/
theorem claim_C7_witness :
    pod_stashed.is_stashed = true ∧
    ((layout inner_id parent0 pod_stashed ⟨⟨0, 0⟩, ⟨100, 100⟩⟩ none).size = ⟨0, 0⟩ ∧
     (layout inner_id parent0 pod_stashed ⟨⟨0, 0⟩, ⟨100, 100⟩⟩ none).recursed = false ∧
     (layout inner_id parent0 pod_stashed ⟨⟨0, 0⟩, ⟨100, 100⟩⟩ none).state = pod_stashed ∧
     (layout inner_id parent0 pod_stashed ⟨⟨0, 0⟩, ⟨100, 100⟩⟩ none).parent = parent0 ∧
     (layout inner_id parent0 pod_stashed ⟨⟨0, 0⟩, ⟨100, 100⟩⟩ none).debug_panic = true) :=
  ⟨rfl, claim_C7 inner_id parent0 pod_stashed ⟨⟨0, 0⟩, ⟨100, 100⟩⟩ none rfl⟩

/-! ### C8 — paint visibility culling -/

/-- Claim C8: a non-forced paint of an initialized, non-stashed pod whose
paint rect does not intersect the visible region skips entirely — no
recursion into the inner widget and no change to the node state. -/
theorem claim_C8 (region : Region) (s : WidgetState)
    (hst : s.is_stashed = false) (hin : s.is_new = false)
    (hvis : region_intersects region s.paint_rect = false) :
    (paint_impl region s false).recursed = false ∧
    (paint_impl region s false).state = s ∧
    (paint_impl region s false).debug_panic = false := by
  simp [paint_impl, hst, hin, hvis]

/-- Claim C8 witness: the theorem applied to a concrete pod whose
`10 × 10` paint rect lies fully outside a far-away visible region. -/
theorem claim_C8_witness :
    pod_init.is_stashed = false ∧ pod_init.is_new = false ∧
    region_intersects [⟨100, 100, 200, 200⟩] pod_init.paint_rect = false ∧
    ((paint_impl [⟨100, 100, 200, 200⟩] pod_init false).recursed = false ∧
     (paint_impl [⟨100, 100, 200, 200⟩] pod_init false).state = pod_init ∧
     (paint_impl [⟨100, 100, 200, 200⟩] pod_init false).debug_panic = false) :=
  ⟨rfl, rfl, by decide,
    claim_C8 [⟨100, 100, 200, 200⟩] pod_init rfl rfl (by decide)⟩

/-! ### C10 — `boxed` resets the node state -/

/-- Claim C10: `boxed` keeps only the id and rebuilds the node state from
scratch — uninitialized again with `children_changed` and `needs_layout`
set, and every accumulated flag, geometry item, focus chain and descendant
filter discarded. -/
theorem claim_C10 (s : WidgetState) :
    (boxed s).id = s.id ∧
    (boxed s).is_new = true ∧
    (boxed s).children_changed = true ∧
    (boxed s).needs_layout = true ∧
    (boxed s).size = ⟨0, 0⟩ ∧
    (boxed s).origin = ⟨0, 0⟩ ∧
    (boxed s).paint_insets = ⟨0, 0, 0, 0⟩ ∧
    (boxed s).is_hot = false ∧
    (boxed s).is_active = false ∧
    (boxed s).has_active = false ∧
    (boxed s).has_focus = false ∧
    (boxed s).is_stashed = false ∧
    (boxed s).request_anim = false ∧
    (boxed s).request_focus = none ∧
    (boxed s).focus_chain = [] ∧
    ∀ i, (boxed s).children i = false :=
  ⟨rfl, rfl, rfl, rfl, rfl, rfl, rfl, rfl, rfl, rfl, rfl, rfl, rfl, rfl, rfl,
    fun _ => rfl⟩

/-! ### Facts connecting `on_event` to its dispatch step -/

/-- With the context not already handled, `on_event` recurses exactly when
the dispatch `match` said to. -/
theorem on_event_recursed_eq (inner : Inner) (env : EnvM) (is_root : Bool)
    (parent : WidgetState) (pns : List Notification) (s : WidgetState)
    (ev : Event) :
    (on_event inner env is_root parent false pns s ev).recursed
      = (on_event_dispatch inner env is_root s ev).call_inner := by
  cases hc : (on_event_dispatch inner env is_root s ev).call_inner <;>
    simp [on_event, hc]

/-- With the context not already handled, the event forwarded to the inner
widget is the dispatch's replacement event, defaulting to the original. -/
theorem on_event_inner_event_eq (inner : Inner) (env : EnvM) (is_root : Bool)
    (parent : WidgetState) (pns : List Notification) (s : WidgetState)
    (ev : Event) :
    (on_event inner env is_root parent false pns s ev).inner_event
      = (if (on_event_dispatch inner env is_root s ev).call_inner
         then some ((on_event_dispatch inner env is_root s ev).modified.getD ev)
         else none) := by
  cases hc : (on_event_dispatch inner env is_root s ev).call_inner <;>
    simp [on_event, hc]

/-! ### C4 — `MouseMove` recursion condition and coordinate rewrite -/

/-- Claim C4: for a `MouseMove` on an initialized pod with the context not
already handled, `on_event` recurses iff (the pod had an active descendant
before the call, or is hot after the hot-state update, or the hot state
just changed) and the pod is not stashed; and the forwarded event's
position is the incoming position minus the pod's layout origin. -/
theorem claim_C4 (inner : Inner) (env : EnvM) (is_root : Bool)
    (parent : WidgetState) (pns : List Notification) (s : WidgetState)
    (m : MouseEvent) (hinit : s.is_new = false) :
    (on_event inner env is_root parent false pns s (.mouseMove m)).recursed
      = ((s.has_active
          || (update_hot_state inner env s s.layout_rect (some m.pos)).1.is_hot
          || (update_hot_state inner env s s.layout_rect (some m.pos)).2)
         && !(update_hot_state inner env s s.layout_rect (some m.pos)).1.is_stashed) ∧
    ((on_event inner env is_root parent false pns s (.mouseMove m)).recursed = true →
      (on_event inner env is_root parent false pns s (.mouseMove m)).inner_event
        = some (.mouseMove ⟨m.pos - s.origin⟩)) := by
  have hd : (on_event_dispatch inner env is_root s (.mouseMove m)).call_inner
      = ((s.has_active
          || (update_hot_state inner env s s.layout_rect (some m.pos)).1.is_hot
          || (update_hot_state inner env s s.layout_rect (some m.pos)).2)
         && !(update_hot_state inner env s s.layout_rect (some m.pos)).1.is_stashed) := by
    simp only [on_event_dispatch]
    split
    · next h => simp [h]
    · next h => simp [h]
  have hmod : (on_event_dispatch inner env is_root s (.mouseMove m)).call_inner = true →
      (on_event_dispatch inner env is_root s (.mouseMove m)).modified
        = some (.mouseMove ⟨m.pos - s.origin⟩) := by
    simp only [on_event_dispatch]
    split
    · intro _; rfl
    · intro h; exact Bool.noConfusion h
  refine ⟨by rw [on_event_recursed_eq, hd], ?_⟩
  intro hr
  rw [on_event_recursed_eq] at hr
  rw [on_event_inner_event_eq, if_pos hr, hmod hr]
  rfl

/-- Claim C4 witness: the theorem applied to a concrete hot pod; the
forwarded position equals the incoming one since the origin is zero. -/
theorem claim_C4_witness :
    pod_init.is_new = false ∧
    ((on_event inner_id env0 false parent0 false [] pod_init
        (.mouseMove ⟨⟨5, 5⟩⟩)).recursed
      = ((pod_init.has_active
          || (update_hot_state inner_id env0 pod_init pod_init.layout_rect
                (some ⟨5, 5⟩)).1.is_hot
          || (update_hot_state inner_id env0 pod_init pod_init.layout_rect
                (some ⟨5, 5⟩)).2)
         && !(update_hot_state inner_id env0 pod_init pod_init.layout_rect
                (some ⟨5, 5⟩)).1.is_stashed) ∧
     ((on_event inner_id env0 false parent0 false [] pod_init
         (.mouseMove ⟨⟨5, 5⟩⟩)).recursed = true →
       (on_event inner_id env0 false parent0 false [] pod_init
         (.mouseMove ⟨⟨5, 5⟩⟩)).inner_event
         = some (.mouseMove ⟨(⟨5, 5⟩ : Point) - pod_init.origin⟩))) :=
  ⟨rfl, claim_C4 inner_id env0 false parent0 [] pod_init ⟨⟨5, 5⟩⟩ rfl⟩

/-! ### C5 — targeted and routed event delivery -/

/-- Claim C5: targeted commands and the routed timer / promise-result /
IME events are unwrapped and recursed when addressed to this pod; for any
other widget target the pod recurses, with the event unchanged, exactly
when its descendant filter may contain the target; and `Global`- or
`Window`-targeted commands are always unwrapped and recursed. -/
theorem claim_C5 (inner : Inner) (env : EnvM) (is_root : Bool)
    (parent : WidgetState) (pns : List Notification) (s : WidgetState)
    (pl tok : Nat) (oid : WidgetId) (hinit : s.is_new = false)
    (hne : oid ≠ s.id) :
    ((on_event inner env is_root parent false pns s
        (.internalTargetedCommand ⟨.widget s.id, pl⟩)).recursed = true ∧
     (on_event inner env is_root parent false pns s
        (.internalTargetedCommand ⟨.widget s.id, pl⟩)).inner_event
       = some (.command ⟨.widget s.id, pl⟩)) ∧
    ((on_event inner env is_root parent false pns s
        (.internalTargetedCommand ⟨.widget oid, pl⟩)).recursed = s.children oid ∧
     (on_event inner env is_root parent false pns s
        (.internalTargetedCommand ⟨.widget oid, pl⟩)).inner_event
       = (if s.children oid
          then some (.internalTargetedCommand ⟨.widget oid, pl⟩) else none)) ∧
    ((on_event inner env is_root parent false pns s
        (.internalTargetedCommand ⟨.global, pl⟩)).recursed = true ∧
     (on_event inner env is_root parent false pns s
        (.internalTargetedCommand ⟨.global, pl⟩)).inner_event
       = some (.command ⟨.global, pl⟩)) ∧
    (∀ wnd, (on_event inner env is_root parent false pns s
        (.internalTargetedCommand ⟨.window wnd, pl⟩)).recursed = true ∧
     (on_event inner env is_root parent false pns s
        (.internalTargetedCommand ⟨.window wnd, pl⟩)).inner_event
       = some (.command ⟨.window wnd, pl⟩)) ∧
    ((on_event inner env is_root parent false pns s
        (.internalRouteTimer tok s.id)).recursed = true ∧
     (on_event inner env is_root parent false pns s
        (.internalRouteTimer tok s.id)).inner_event = some (.timer tok)) ∧
    ((on_event inner env is_root parent false pns s
        (.internalRouteTimer tok oid)).recursed = s.children oid ∧
     (on_event inner env is_root parent false pns s
        (.internalRouteTimer tok oid)).inner_event
       = (if s.children oid then some (.internalRouteTimer tok oid) else none)) ∧
    ((on_event inner env is_root parent false pns s
        (.internalRoutePromiseResult tok s.id)).recursed = true ∧
     (on_event inner env is_root parent false pns s
        (.internalRoutePromiseResult tok s.id)).inner_event
       = some (.promiseResult tok)) ∧
    ((on_event inner env is_root parent false pns s
        (.internalRoutePromiseResult tok oid)).recursed = s.children oid ∧
     (on_event inner env is_root parent false pns s
        (.internalRoutePromiseResult tok oid)).inner_event
       = (if s.children oid
          then some (.internalRoutePromiseResult tok oid) else none)) ∧
    ((on_event inner env is_root parent false pns s
        (.internalRouteImeStateChange s.id)).recursed = true ∧
     (on_event inner env is_root parent false pns s
        (.internalRouteImeStateChange s.id)).inner_event = some .imeStateChange) ∧
    ((on_event inner env is_root parent false pns s
        (.internalRouteImeStateChange oid)).recursed = s.children oid ∧
     (on_event inner env is_root parent false pns s
        (.internalRouteImeStateChange oid)).inner_event
       = (if s.children oid then some (.internalRouteImeStateChange oid) else none)) := by
  refine ⟨⟨?_, ?_⟩, ⟨?_, ?_⟩, ⟨?_, ?_⟩, fun wnd => ⟨?_, ?_⟩, ⟨?_, ?_⟩, ⟨?_, ?_⟩,
    ⟨?_, ?_⟩, ⟨?_, ?_⟩, ⟨?_, ?_⟩, ⟨?_, ?_⟩⟩ <;>
    simp [on_event_recursed_eq, on_event_inner_event_eq, on_event_dispatch, hne]

/-- Claim C5 witness: the theorem applied to a concrete pod (id 1) and a
foreign target (id 9) absent from its descendant filter. -/
theorem claim_C5_witness :
    pod_init.is_new = false ∧ (9 : WidgetId) ≠ pod_init.id ∧
    ((on_event inner_id env0 false parent0 false [] pod_init
        (.internalRouteTimer 4 pod_init.id)).recursed = true ∧
     (on_event inner_id env0 false parent0 false [] pod_init
        (.internalRouteTimer 4 pod_init.id)).inner_event = some (.timer 4)) ∧
    ((on_event inner_id env0 false parent0 false [] pod_init
        (.internalRouteTimer 4 9)).recursed = pod_init.children 9 ∧
     (on_event inner_id env0 false parent0 false [] pod_init
        (.internalRouteTimer 4 9)).inner_event
       = (if pod_init.children 9 then some (.internalRouteTimer 4 9) else none)) :=
  ⟨rfl, by decide,
    (claim_C5 inner_id env0 false parent0 [] pod_init 0 4 9 rfl (by decide)).2.2.2.2.1,
    (claim_C5 inner_id env0 false parent0 [] pod_init 0 4 9 rfl (by decide)).2.2.2.2.2.1⟩

/-! ### Preservation facts about the helpers -/

/-- Merging a child up never changes the child's `is_hot`. -/
theorem merge_up_snd_is_hot (p c : WidgetState) :
    (merge_up p c).2.is_hot = c.is_hot := rfl

/-- Merging a child up never changes the child's `has_focus`. -/
theorem merge_up_snd_has_focus (p c : WidgetState) :
    (merge_up p c).2.has_focus = c.has_focus := rfl

/-- Merging a child up never changes the child's `has_active`. -/
theorem merge_up_snd_has_active (p c : WidgetState) :
    (merge_up p c).2.has_active = c.has_active := rfl

/-- If the inner widget's event handling preserves `is_hot` (the event
context exposes no way to change it), so does notification processing. -/
theorem process_notifications_is_hot (inner : Inner)
    (h2 : ∀ t e, (inner.on_event t e).state.is_hot = t.is_hot)
    (ns : List Notification) (s : WidgetState) (pns : List Notification) :
    (process_notifications inner s ns pns).1.is_hot = s.is_hot := by
  have step : ∀ (acc : WidgetState × List Notification) (n : Notification),
      (process_notification_step inner acc n).1.is_hot = acc.1.is_hot := by
    intro acc n
    unfold process_notification_step
    split
    · dsimp only
      split
      · exact h2 _ _
      · exact h2 _ _
    · rfl
  unfold process_notifications
  induction ns generalizing s pns with
  | nil => rfl
  | cons n ns ih =>
      rw [List.foldl_cons]
      have := ih (process_notification_step inner (s, pns) n).1
        (process_notification_step inner (s, pns) n).2
      rw [Prod.mk.eta] at this
      rw [this, step]

/-- If the inner widget preserves `is_hot` through events and lifecycle
calls, the whole `call_inner` block does. -/
theorem on_event_call_inner_is_hot (inner : Inner) (pns : List Notification)
    (d : DispatchResult) (ev : Event)
    (h2 : ∀ t e, (inner.on_event t e).state.is_hot = t.is_hot)
    (h3 : ∀ t e, (inner.lifecycle t e).is_hot = t.is_hot) :
    (on_event_call_inner inner pns d ev).1.is_hot = d.state.is_hot := by
  simp only [on_event_call_inner]
  rw [process_notifications_is_hot inner h2]
  cases hp : (inner.on_event { d.state with has_active := false }
      (d.modified.getD ev)).pan_to_child with
  | none =>
      show (inner.on_event { d.state with has_active := false }
        (d.modified.getD ev)).state.is_hot = d.state.is_hot
      rw [h2]
  | some tr =>
      rw [h3]
      show (inner.on_event { d.state with has_active := false }
        (d.modified.getD ev)).state.is_hot = d.state.is_hot
      rw [h2]

/-- With the context not already handled, the `is_hot` left behind by
`on_event` is the one computed by the dispatch step, provided the inner
widget cannot change `is_hot` (no context exposes a setter for it). -/
theorem on_event_state_is_hot (inner : Inner) (env : EnvM) (is_root : Bool)
    (parent : WidgetState) (pns : List Notification) (s : WidgetState) (ev : Event)
    (h2 : ∀ t e, (inner.on_event t e).state.is_hot = t.is_hot)
    (h3 : ∀ t e, (inner.lifecycle t e).is_hot = t.is_hot) :
    (on_event inner env is_root parent false pns s ev).state.is_hot
      = (on_event_dispatch inner env is_root s ev).state.is_hot := by
  cases hc : (on_event_dispatch inner env is_root s ev).call_inner with
  | false => simp [on_event, hc, merge_up_snd_is_hot]
  | true =>
      simp only [on_event, Bool.false_eq_true, if_false, hc, if_true]
      rw [merge_up_snd_is_hot, on_event_call_inner_is_hot inner pns _ ev h2 h3]

/-- The hot flag computed by `update_hot_state`, when the inner widget's
status-change handling cannot touch it. -/
theorem update_hot_state_is_hot (inner : Inner) (env : EnvM) (s : WidgetState)
    (rect : Rect) (mp : Option Point)
    (h1 : ∀ t e, (inner.on_status_change t e).is_hot = t.is_hot) :
    (update_hot_state inner env s rect mp).1.is_hot
      = (match mp with
         | some pos => decide (rect.winding pos ≠ 0)
         | none => false) := by
  unfold update_hot_state
  split <;>
    · dsimp only
      split
      · rw [h1]
        split <;> rfl
      · rfl

/-- The dispatch step leaves behind the hot-state-updated widget state on
every pointer event. -/
theorem on_event_dispatch_pointer_state (inner : Inner) (env : EnvM)
    (is_root : Bool) (s : WidgetState) (m : MouseEvent) :
    ((on_event_dispatch inner env is_root s (.mouseDown m)).state
       = (update_hot_state inner env s s.layout_rect (some m.pos)).1) ∧
    ((on_event_dispatch inner env is_root s (.mouseUp m)).state
       = (update_hot_state inner env s s.layout_rect (some m.pos)).1) ∧
    ((on_event_dispatch inner env is_root s (.mouseMove m)).state
       = (update_hot_state inner env s s.layout_rect (some m.pos)).1) ∧
    ((on_event_dispatch inner env is_root s (.wheel m)).state
       = (update_hot_state inner env s s.layout_rect (some m.pos)).1) ∧
    ((on_event_dispatch inner env is_root s .internalMouseLeave).state
       = (update_hot_state inner env s s.layout_rect none).1) := by
  refine ⟨?_, ?_, ?_, ?_, rfl⟩ <;>
    · simp only [on_event_dispatch]
      split <;> rfl

/-- Inside a zero-area layout rect the winding number is 0 everywhere. -/
theorem winding_degenerate (s : WidgetState) (p : Point)
    (h : s.size.width = 0 ∨ s.size.height = 0) :
    s.layout_rect.winding p = 0 := by
  simp only [WidgetState.layout_rect, Rect.from_origin_size, Rect.winding]
  rw [if_neg]
  rintro ⟨h1, h2, h3, h4⟩
  rcases h with h | h
  · rw [h, add_zero] at h2
    exact absurd h2 (not_lt.mpr h1)
  · rw [h, add_zero] at h4
    exact absurd h4 (not_lt.mpr h3)

/-! ### C3 — pointer-driven hot state -/

/-- A pod whose paint rect strictly exceeds its layout rect. -/
def pod_inset : WidgetState :=
  { new_with_id 2 with
    is_new := false
    size := ⟨10, 10⟩
    paint_insets := ⟨5, 5, 5, 5⟩ }

/-- Claim C3 counterexample: the claim says pointer events make a pod hot
iff the position lies inside its *paint rect*. `on_event` passes
`self.layout_rect()` to `update_hot_state`, so a position at `(12, 5)` —
inside the paint rect `(-5, -5)-(15, 15)` of a pod with layout rect
`(0, 0)-(10, 10)` and insets 5 — leaves the pod not hot. -/
theorem claim_C3_counterexample :
    pod_inset.paint_rect.winding ⟨12, 5⟩ ≠ 0 ∧
    (on_event inner_id env0 false parent0 false [] pod_inset
      (.mouseMove ⟨⟨12, 5⟩⟩)).state.is_hot = false := by
  decide

/-- Claim C3 (amended): during every pointer event the pod's `is_hot`
becomes true iff a position is supplied and lies, by the winding rule,
inside the pod's current *layout rect* (not its paint rect); with no
position (pointer-leave) the pod is not hot, and on a degenerate
zero-area rect no position is ever hot. The inner widget is assumed unable
to overwrite `is_hot`, as no context type exposes a setter for it. -/
theorem claim_C3_amended (inner : Inner) (env : EnvM) (is_root : Bool)
    (parent : WidgetState) (pns : List Notification) (s : WidgetState)
    (m : MouseEvent) (hinit : s.is_new = false)
    (h1 : ∀ t e, (inner.on_status_change t e).is_hot = t.is_hot)
    (h2 : ∀ t e, (inner.on_event t e).state.is_hot = t.is_hot)
    (h3 : ∀ t e, (inner.lifecycle t e).is_hot = t.is_hot) :
    ((on_event inner env is_root parent false pns s (.mouseDown m)).state.is_hot
      = decide (s.layout_rect.winding m.pos ≠ 0)) ∧
    ((on_event inner env is_root parent false pns s (.mouseUp m)).state.is_hot
      = decide (s.layout_rect.winding m.pos ≠ 0)) ∧
    ((on_event inner env is_root parent false pns s (.mouseMove m)).state.is_hot
      = decide (s.layout_rect.winding m.pos ≠ 0)) ∧
    ((on_event inner env is_root parent false pns s (.wheel m)).state.is_hot
      = decide (s.layout_rect.winding m.pos ≠ 0)) ∧
    ((on_event inner env is_root parent false pns s
        .internalMouseLeave).state.is_hot = false) ∧
    (s.size.width = 0 ∨ s.size.height = 0 →
      (on_event inner env is_root parent false pns s
        (.mouseMove m)).state.is_hot = false) := by
  obtain ⟨e1, e2, e3, e4, e5⟩ :=
    on_event_dispatch_pointer_state inner env is_root s m
  have hmm : (on_event inner env is_root parent false pns s
      (.mouseMove m)).state.is_hot = decide (s.layout_rect.winding m.pos ≠ 0) := by
    rw [on_event_state_is_hot inner env is_root parent pns s _ h2 h3, e3,
      update_hot_state_is_hot inner env s _ _ h1]
  refine ⟨?_, ?_, hmm, ?_, ?_, ?_⟩
  · rw [on_event_state_is_hot inner env is_root parent pns s _ h2 h3, e1,
      update_hot_state_is_hot inner env s _ _ h1]
  · rw [on_event_state_is_hot inner env is_root parent pns s _ h2 h3, e2,
      update_hot_state_is_hot inner env s _ _ h1]
  · rw [on_event_state_is_hot inner env is_root parent pns s _ h2 h3, e4,
      update_hot_state_is_hot inner env s _ _ h1]
  · rw [on_event_state_is_hot inner env is_root parent pns s _ h2 h3, e5,
      update_hot_state_is_hot inner env s _ _ h1]
  · intro hdeg
    rw [hmm, winding_degenerate s m.pos hdeg]
    decide

/-- Claim C3 witness: the amended theorem applied to a concrete pod and a
position inside its layout rect. -/
theorem claim_C3_witness :
    pod_init.is_new = false ∧
    (∀ t e, (inner_id.on_status_change t e).is_hot = t.is_hot) ∧
    (∀ t e, (inner_id.on_event t e).state.is_hot = t.is_hot) ∧
    (∀ t e, (inner_id.lifecycle t e).is_hot = t.is_hot) ∧
    (on_event inner_id env0 false parent0 false [] pod_init
      (.mouseMove ⟨⟨5, 5⟩⟩)).state.is_hot
      = decide (pod_init.layout_rect.winding ⟨5, 5⟩ ≠ 0) :=
  ⟨rfl, fun _ _ => rfl, fun _ _ => rfl, fun _ _ => rfl,
    (claim_C3_amended inner_id env0 false parent0 [] pod_init ⟨⟨5, 5⟩⟩ rfl
      (fun _ _ => rfl) (fun _ _ => rfl) (fun _ _ => rfl)).2.2.1⟩

/-! ### C6 — `RouteFocusChanged` -/

/-- `lifecycle_finish` recurses exactly when told to. -/
theorem lifecycle_finish_recursed (inner : Inner) (parent s : WidgetState)
    (ev : LifeCycle) (had_focus call_inner : Bool) (extra : Option StatusChange)
    (delivered : Option Bool) (warned : Bool) :
    (lifecycle_finish inner parent s ev had_focus call_inner extra delivered
      warned).recursed = call_inner := rfl

/-- For a `RouteFocusChanged` signal, the tail of the lifecycle pass keeps
the `has_focus` chosen by the dispatch arm, provided the inner widget
cannot change `has_focus` (no context exposes a setter for it). -/
theorem lifecycle_finish_focus_route (inner : Inner)
    (hfl : ∀ t e, (inner.lifecycle t e).has_focus = t.has_focus)
    (hfs : ∀ t e, (inner.on_status_change t e).has_focus = t.has_focus)
    (parent s : WidgetState) (old new : Option WidgetId)
    (had_focus call_inner : Bool) (extra : Option StatusChange)
    (delivered : Option Bool) (warned : Bool) :
    (lifecycle_finish inner parent s (.internalRouteFocusChanged old new)
      had_focus call_inner extra delivered warned).state.has_focus
      = s.has_focus := by
  unfold lifecycle_finish
  dsimp only
  rw [merge_up_snd_has_focus]
  cases extra with
  | none => cases call_inner <;> simp [hfl]
  | some e => cases call_inner <;> simp [hfl, hfs]

/-- A pod whose descendant filter may contain id 8. -/
def pod_bloom : WidgetState :=
  { new_with_id 6 with
    is_new := false
    children := fun i => decide (i = 8) }

/-- A plain initialized pod used for the focus counterexample. -/
def pod_focus : WidgetState := { new_with_id 4 with is_new := false }

/-- Claim C6 counterexample: the claim quantifies over all `old`/`new`,
"including the case where both equal this node's id", and asserts
`has_focus` becomes true iff the id equals `new`. With
`old = new = some id` the code matches `old` first and sets `has_focus`
to false, although the id does equal `new`. -/
theorem claim_C6_counterexample :
    pod_focus.id = 4 ∧
    (lifecycle inner_id none parent0 pod_focus
      (.internalRouteFocusChanged (some 4) (some 4))).state.has_focus = false := by
  decide

/-- Claim C6 (amended): on `RouteFocusChanged{old, new}` the pod's
`has_focus` becomes true iff its id equals `new` and differs from `old`
(`old` is matched first, so it wins when both coincide), and false
otherwise; and the pod recurses iff its descendant filter may contain
`old` or may contain `new`. The inner widget is assumed unable to
overwrite `has_focus`, as no context type exposes a setter for it. -/
theorem claim_C6_amended (inner : Inner) (fw : Option WidgetId)
    (parent s : WidgetState) (old new : Option WidgetId)
    (hfl : ∀ t e, (inner.lifecycle t e).has_focus = t.has_focus)
    (hfs : ∀ t e, (inner.on_status_change t e).has_focus = t.has_focus) :
    ((lifecycle inner fw parent s (.internalRouteFocusChanged old new)).state.has_focus
      = (decide (old ≠ some s.id) && decide (new = some s.id))) ∧
    ((lifecycle inner fw parent s (.internalRouteFocusChanged old new)).recursed
      = ((match old with | some o => s.children o | none => false)
         || (match new with | some n => s.children n | none => false))) := by
  constructor
  · show (lifecycle_main inner fw parent s
      (.internalRouteFocusChanged old new)).state.has_focus = _
    simp only [lifecycle_main]
    rw [lifecycle_finish_focus_route inner hfl hfs]
    by_cases ho : old = some s.id
    · simp [ho]
    · by_cases hn2 : new = some s.id <;> simp [ho, hn2]
  · show (lifecycle_main inner fw parent s
      (.internalRouteFocusChanged old new)).recursed = _
    simp only [lifecycle_main]
    rw [lifecycle_finish_recursed]
    by_cases ho : old = some s.id
    · simp [ho]
    · by_cases hn2 : new = some s.id <;> simp [ho, hn2]

/-- Claim C6 witness: the amended theorem applied to a pod (id 6) whose
filter contains the departing widget 8 while it gains the focus itself. -/
theorem claim_C6_witness :
    (∀ t e, (inner_id.lifecycle t e).has_focus = t.has_focus) ∧
    (∀ t e, (inner_id.on_status_change t e).has_focus = t.has_focus) ∧
    ((lifecycle inner_id none parent0 pod_bloom
        (.internalRouteFocusChanged (some 8) (some pod_bloom.id))).state.has_focus
      = (decide ((some 8 : Option WidgetId) ≠ some pod_bloom.id)
         && decide ((some pod_bloom.id : Option WidgetId) = some pod_bloom.id))) ∧
    ((lifecycle inner_id none parent0 pod_bloom
        (.internalRouteFocusChanged (some 8) (some pod_bloom.id))).recursed
      = (pod_bloom.children 8 || pod_bloom.children pod_bloom.id)) :=
  ⟨fun _ _ => rfl, fun _ _ => rfl,
    (claim_C6_amended inner_id none parent0 pod_bloom (some 8)
      (some pod_bloom.id) (fun _ _ => rfl) (fun _ _ => rfl)).1,
    (claim_C6_amended inner_id none parent0 pod_bloom (some 8)
      (some pod_bloom.id) (fun _ _ => rfl) (fun _ _ => rfl)).2⟩

/-! ### C9 — `has_active` around the inner event call -/

/-- When the inner widget emits no notifications and requests no pan, the
`call_inner` block leaves `has_active` equal to the OR of the inner call's
resulting `has_active` and resulting `is_active` (the inner call receives
the state with `has_active` reset to false). -/
theorem on_event_call_inner_has_active (inner : Inner) (pns : List Notification)
    (d : DispatchResult) (ev : Event)
    (hn : ∀ t e, (inner.on_event t e).notifications = [])
    (hp : ∀ t e, (inner.on_event t e).pan_to_child = none) :
    (on_event_call_inner inner pns d ev).1.has_active
      = ((inner.on_event { d.state with has_active := false }
            (d.modified.getD ev)).state.has_active
         || (inner.on_event { d.state with has_active := false }
            (d.modified.getD ev)).state.is_active) := by
  simp only [on_event_call_inner, hn, hp]
  rfl

/-- A pod that is active (and so has an active descendant path). -/
def pod_active : WidgetState :=
  { new_with_id 3 with
    is_new := false
    is_active := true
    has_active := true }

/-- An inner widget that deactivates itself during the event (as a button
does on `MouseUp` via `set_active(false)`). -/
def inner_deact : Inner where
  on_event := fun t _ => ⟨{ t with is_active := false }, false, [], none⟩
  on_status_change := fun t _ => t
  lifecycle := fun t _ => t
  layout := fun t _ _ => (t, ⟨0, 0⟩)

/-- Claim C9 counterexample: the claim says the *pre-call* `is_active` is
OR-ed back into `has_active`, which would force `has_active = true` here
(`is_active` was true before the call). The code ORs the *post-call*
`is_active`: an active pod whose inner widget deactivates itself on
`MouseUp` ends with `has_active = false` — which is also what the spec's
own press/release scenario requires. -/
theorem claim_C9_counterexample :
    pod_active.is_active = true ∧
    (on_event inner_deact env0 false parent0 false [] pod_active
      (.mouseUp ⟨⟨0, 0⟩⟩)).recursed = true ∧
    (on_event inner_deact env0 false parent0 false [] pod_active
      (.mouseUp ⟨⟨0, 0⟩⟩)).state.has_active = false := by
  decide

/-- Claim C9 (amended): whenever `on_event` recurses, `has_active` is
reset to false immediately before the inner call, and immediately after
the call the *post-call* value of `is_active` (as possibly updated by the
inner widget) is OR-ed back in; so after the recursion `has_active`
equals the OR of the inner call's resulting `has_active` and resulting
`is_active`. Stated for inner widgets that emit no notifications and
request no pan, so that no further inner calls follow. -/
theorem claim_C9_amended (inner : Inner) (env : EnvM) (is_root : Bool)
    (parent : WidgetState) (pns : List Notification) (s : WidgetState)
    (ev : Event) (hinit : s.is_new = false)
    (hn : ∀ t e, (inner.on_event t e).notifications = [])
    (hp : ∀ t e, (inner.on_event t e).pan_to_child = none)
    (hr : (on_event inner env is_root parent false pns s ev).recursed = true) :
    (on_event inner env is_root parent false pns s ev).state.has_active
      = ((inner.on_event
            { (on_event_dispatch inner env is_root s ev).state with
              has_active := false }
            ((on_event_dispatch inner env is_root s ev).modified.getD
              ev)).state.has_active
         || (inner.on_event
            { (on_event_dispatch inner env is_root s ev).state with
              has_active := false }
            ((on_event_dispatch inner env is_root s ev).modified.getD
              ev)).state.is_active) := by
  rw [on_event_recursed_eq] at hr
  simp only [on_event, Bool.false_eq_true, if_false, hr, if_true]
  rw [merge_up_snd_has_active, on_event_call_inner_has_active inner pns _ ev hn hp]

/-- Claim C9 witness: the amended theorem applied to the deactivating
inner widget on a concrete active pod. -/
theorem claim_C9_witness :
    pod_active.is_new = false ∧
    (∀ t e, (inner_deact.on_event t e).notifications = []) ∧
    (∀ t e, (inner_deact.on_event t e).pan_to_child = none) ∧
    (on_event inner_deact env0 false parent0 false [] pod_active
      (.mouseUp ⟨⟨0, 0⟩⟩)).recursed = true ∧
    (on_event inner_deact env0 false parent0 false [] pod_active
      (.mouseUp ⟨⟨0, 0⟩⟩)).state.has_active
      = ((inner_deact.on_event
            { (on_event_dispatch inner_deact env0 false pod_active
                (.mouseUp ⟨⟨0, 0⟩⟩)).state with has_active := false }
            ((on_event_dispatch inner_deact env0 false pod_active
                (.mouseUp ⟨⟨0, 0⟩⟩)).modified.getD
              (.mouseUp ⟨⟨0, 0⟩⟩))).state.has_active
         || (inner_deact.on_event
            { (on_event_dispatch inner_deact env0 false pod_active
                (.mouseUp ⟨⟨0, 0⟩⟩)).state with has_active := false }
            ((on_event_dispatch inner_deact env0 false pod_active
                (.mouseUp ⟨⟨0, 0⟩⟩)).modified.getD
              (.mouseUp ⟨⟨0, 0⟩⟩))).state.is_active) :=
  ⟨rfl, fun _ _ => rfl, fun _ _ => rfl, by decide,
    claim_C9_amended inner_deact env0 false parent0 [] pod_active
      (.mouseUp ⟨⟨0, 0⟩⟩) rfl (fun _ _ => rfl) (fun _ _ => rfl) (by decide)⟩

end Masonry
